import Mathlib

/-!
Verification of the on-demand image transformation endpoints of
`andrelandgraf/img-optimization-playground`.

The repository exposes two HTTP GET handlers implementing the same contract:

* `/img` — the buffered handler (`src/app/routes/img.ts`): reads the whole
  source file with `readFileSync`, optionally resizes / re-encodes it through
  a `sharp` pipeline, and returns the resulting buffer.
* `/img-stream` — the streaming handler (`routes/img-stream.ts`): opens a
  `createReadStream` handle and pipes it through a `sharp` stream pipeline
  into the response body.

Both handlers are embedded below as pure Lean functions over an explicit
environment (the file system contents, the two process-memory snapshots, the
working directory) and an explicit codec capability standing for the external
`sharp` library (decode / resize / encode). JavaScript-specific behaviours are
modelled faithfully: string and number truthiness (`""`, `0`, `NaN` and `null`
are falsy), `parseInt(s, 10)` prefix parsing (NaN represented as `none`), and
the fact that Node's `createReadStream` never throws synchronously for a
missing file (the ENOENT error is emitted asynchronously on the stream).

Ghost fields (`opens`, `reads`, `resizeInvoked`, `pipelined`) record the I/O
and pipeline events of a run without influencing the produced response.
-/

/-- Raw query parameters as extracted by `params.get`: `none` models a `null`
return (parameter absent from the query string). -/
structure Query where
  src : Option String := none
  w : Option String := none
  h : Option String := none
  format : Option String := none
deriving DecidableEq, Repr

/-- The decoded image object produced by the codec: pixel dimensions plus
opaque pixel data. -/
structure Image where
  width : Nat
  height : Nat
  data : List Nat
deriving DecidableEq, Repr

/-- The external image-codec capability (the `sharp` library): `decode` may
fail on corrupt input; `resize` and `encode` are total. `encode` takes the
requested output format (`none` preserves the source encoding). -/
structure Codec where
  decode : List Nat → Except String Image
  resize : Int → Int → Image → Image
  encode : Option String → Image → List Nat

/-- The handler's environment: file-system contents keyed by physical path
(`none` = no readable file there), the process working directory, and the two
process-memory snapshots (`arrayBuffers + heapUsed`) taken at the before/after
sample points of the request. -/
structure Env where
  fs : String → Option (List Nat)
  cwd : String
  memBefore : Int
  memAfter : Int

/-- A response body: fully materialised bytes, plain error text, or a body
stream that errors after the headers have been sent (streaming handler only). -/
inductive BodyV where
  | bytes (bs : List Nat)
  | text (s : String)
  | streamError (msg : String)
deriving DecidableEq, Repr

/-- An HTTP response: status code, header list in emission order, body. -/
structure HttpResponse where
  status : Nat
  headers : List (String × String)
  body : BodyV
deriving DecidableEq, Repr

/-- A handler run: the HTTP response plus ghost instrumentation — which paths
an open was attempted on, which were actually read, whether the sharp resize
operation was invoked, and whether a sharp pipeline was constructed at all. -/
structure LoaderOut where
  resp : HttpResponse
  opens : List String
  reads : List String
  resizeInvoked : Bool
  pipelined : Bool
deriving DecidableEq, Repr

/-- JavaScript truthiness of a nullable string: `null` and `""` are falsy. -/
def strTruthy : Option String → Bool
  | none => false
  | some s => s ≠ ""

/-- ASCII whitespace skipped by JavaScript `parseInt`. -/
def isJsSpace (c : Char) : Bool :=
  c = ' ' ∨ c = '\t' ∨ c = '\n' ∨ c = '\r'

/-- Numeric value of a decimal digit character. -/
def digitVal (c : Char) : Nat := c.toNat - '0'.toNat

/-- JavaScript `parseInt(s, 10)`: skip leading whitespace, read an optional
sign, then the longest prefix of decimal digits; `NaN` (modelled as `none`)
when that prefix is empty. Trailing garbage after the digits is ignored. -/
def jsParseInt10 (s : String) : Option Int :=
  let cs := s.data.dropWhile isJsSpace
  let signAndRest : Int × List Char :=
    match cs with
    | '-' :: rest => (-1, rest)
    | '+' :: rest => (1, rest)
    | _ => (1, cs)
  let ds := signAndRest.2.takeWhile Char.isDigit
  if ds.isEmpty then none
  else some (signAndRest.1 * (Int.ofNat (ds.foldl (fun acc c => acc * 10 + digitVal c) 0)))

/-- The dimension parse `w ? parseInt(w, 10) : null`: outer `none` is the
JavaScript `null` (parameter absent or bound to the falsy empty string), inner
`none` is `NaN`. -/
def parseDim : Option String → Option (Option Int)
  | none => none
  | some s => if s = "" then none else some (jsParseInt10 s)

/-- JavaScript truthiness of the parsed dimension: `null` and `NaN` are falsy,
as is the number `0`. -/
def dimTruthy : Option (Option Int) → Bool
  | some (some n) => n ≠ 0
  | some none => false
  | none => false

/-- The integer value of a truthy parsed dimension (only consulted under the
`width && height` gate, where the value is a non-NaN number). -/
def dimVal : Option (Option Int) → Int
  | some (some n) => n
  | some none => 0
  | none => 0

/-- The format guard `format === null || format === "webp" || format === "avif"`. -/
def validFormat : Option String → Bool
  | none => true
  | some s => s = "webp" ∨ s = "avif"

/-- The `X-Memory-Usage` header value: the after-minus-before snapshot delta
interpolated into the template literal followed by the unit. -/
def memHeader (env : Env) : String :=
  s!"{env.memAfter - env.memBefore} bytes"

/-- First header value bound to a key, scanning in emission order. -/
def lookupHeader : List (String × String) → String → Option String
  | [], _ => none
  | p :: rest, k => if p.1 = k then some p.2 else lookupHeader rest k

/-- The options a `sharp` pipeline has accumulated before execution: resize
dimensions (recorded by `.resize(w, h)`) and a target format (recorded by
`.toFormat(f)`). `sharp` is lazy: invoking these methods only records options,
all pixel work happens when the pipeline is executed. -/
structure SharpOpts where
  resizeDims : Option (Int × Int) := none
  fmt : Option String := none
deriving DecidableEq, Repr

/-- The image a configured `sharp` pipeline produces from `buffer`: decode,
then apply the recorded resize if any. -/
def sharpOutImage (codec : Codec) (buffer : List Nat) (o : SharpOpts) :
    Except String Image := do
  let img ← codec.decode buffer
  pure (match o.resizeDims with
    | some (w, h) => codec.resize w h img
    | none => img)

/-- `pipeline.toBuffer()`: run the configured pipeline on `buffer` and encode
the result in the recorded target format (`none` preserves the source
encoding). -/
def sharpToBuffer (codec : Codec) (buffer : List Nat) (o : SharpOpts) :
    Except String (List Nat) := do
  let img ← sharpOutImage codec buffer o
  pure (codec.encode o.fmt img)

/-- A thrown `invariantResponse` failure or a returned error response: plain
text body, no extra headers, no I/O performed on this branch. -/
def errOut (status : Nat) (message : String) : LoaderOut :=
  { resp := { status := status, headers := [], body := .text message },
    opens := [], reads := [], resizeInvoked := false, pipelined := false }

/-- The four sequential `invariantResponse` guards, textually identical in the
two handler sources: the message of the first failing guard, or `none` when
validation passes. The guards run before any file I/O in both handlers. -/
def firstGuardFailure (q : Query) : Option String :=
  if ¬ strTruthy q.src then some "Source image URL is required"
  else if parseDim q.w = some none then some "Width must be unset or a positive number"
  else if parseDim q.h = some none then some "Height must be unset or a positive number"
  else if ¬ validFormat q.format then some "Format must be one of: webp, avif"
  else none

namespace Img

/-- The buffered handler (`loader` of `src/app/routes/img.ts`). Validation
mirrors the three `invariantResponse` guards; the file is read with
`readFileSync` inside a try/catch returning 404; the passthrough branch
returns the raw buffer with the fixed `image/png` content type; the transform
branch runs a `sharp` pipeline whose response carries no `Content-Type` header
(the source has that header line commented out). A rejected `toBuffer`
promise reaches the outer catch and becomes a 500. -/
def loader (env : Env) (codec : Codec) (q : Query) : LoaderOut :=
  match firstGuardFailure q with
  | some m => errOut 400 m
  | none =>
    let src := q.src.getD ""
    let width := parseDim q.w
    let height := parseDim q.h
    let fsPath := "./public" ++ src
    match env.fs fsPath with
      | none =>
        { resp := { status := 404, headers := [],
                    body := .text s!"Image file not found: {src}" },
          opens := [fsPath], reads := [], resizeInvoked := false, pipelined := false }
      | some buffer =>
        if ¬ (strTruthy q.format ∨ dimTruthy width ∨ dimTruthy height) then
          { resp := { status := 200,
                      headers := [("Content-Type", "image/png"),
                                  ("X-Memory-Usage", memHeader env)],
                      body := .bytes buffer },
            opens := [fsPath], reads := [fsPath], resizeInvoked := false,
            pipelined := false }
        else
          let opts : SharpOpts :=
            { resizeDims :=
                if dimTruthy width ∧ dimTruthy height then
                  some (dimVal width, dimVal height)
                else none,
              fmt := if strTruthy q.format then q.format else none }
          match sharpToBuffer codec buffer opts with
          | .error e =>
            { resp := { status := 500, headers := [],
                        body := .text s!"Error processing image: {e}" },
              opens := [fsPath], reads := [fsPath],
              resizeInvoked := opts.resizeDims.isSome, pipelined := true }
          | .ok processed =>
            { resp := { status := 200,
                        headers := [("X-Memory-Usage", memHeader env)],
                        body := .bytes processed },
              opens := [fsPath], reads := [fsPath],
              resizeInvoked := opts.resizeDims.isSome, pipelined := true }

end Img

/-- `path.join(process.cwd(), "public", src)`: joins the segments with single
separators. Segment normalisation (`.` / `..` collapsing) is not modelled; the
sources considered here contain no such segments. -/
def pathJoin (cwd src : String) : String :=
  cwd ++ "/public" ++ src

/-- The eventual outcome of a response-body stream: the bytes it delivers, or
the error event it emits after the 200 headers have already been sent. -/
def streamBody : Except String (List Nat) → BodyV
  | .ok bs => .bytes bs
  | .error e => .streamError e

namespace ImgStream

/-- The streaming handler (`loader` of `routes/img-stream.ts`). Validation is
identical to the buffered handler. The source is opened with
`createReadStream`, which returns a lazy handle and never throws synchronously
for a missing file — ENOENT is emitted asynchronously as an error event on the
stream — so the surrounding try/catch that would return 404 cannot fire and
the handler proceeds to a 200 whose body stream errors. The transform branch
pipes the file stream through a `sharp` pipeline (recording `toFormat` then
`resize`, per source order) and sets `Content-Type` to `image/<format>` when a
format was requested, else `image/png`; a decode failure inside the pipe also
surfaces as a body-stream error, not as a 500, because the handler has already
returned. -/
def loader (env : Env) (codec : Codec) (q : Query) : LoaderOut :=
  match firstGuardFailure q with
  | some m => errOut 400 m
  | none =>
    let src := q.src.getD ""
    let width := parseDim q.w
    let height := parseDim q.h
    let fsPath := pathJoin env.cwd src
    let content : Except String (List Nat) :=
        match env.fs fsPath with
        | some bs => .ok bs
        | none => .error s!"ENOENT: no such file or directory, open {fsPath}"
      let streamReads := match env.fs fsPath with
        | some _ => [fsPath]
        | none => []
      if ¬ (strTruthy q.format ∨ dimTruthy width ∨ dimTruthy height) then
        { resp := { status := 200,
                    headers := [("Content-Type", "image/png"),
                                ("X-Memory-Usage", memHeader env)],
                    body := streamBody content },
          opens := [fsPath], reads := streamReads, resizeInvoked := false,
          pipelined := false }
      else
        let opts : SharpOpts :=
          { fmt := if strTruthy q.format then q.format else none,
            resizeDims :=
              if dimTruthy width ∧ dimTruthy height then
                some (dimVal width, dimVal height)
              else none }
        let piped : Except String (List Nat) := do
          let bs ← content
          sharpToBuffer codec bs opts
        { resp := { status := 200,
                    headers := [("Content-Type",
                                  if strTruthy q.format then
                                    "image/" ++ q.format.getD ""
                                  else "image/png"),
                                ("X-Memory-Usage", memHeader env)],
                    body := streamBody piped },
          opens := [fsPath], reads := streamReads,
          resizeInvoked := opts.resizeDims.isSome, pipelined := true }

end ImgStream

/-- All three validation guards pass: truthy `src`, neither dimension parses
to `NaN`, and `format` is absent, `"webp"` or `"avif"`. -/
def validateOk (q : Query) : Bool :=
  strTruthy q.src && parseDim q.w ≠ some none && parseDim q.h ≠ some none &&
    validFormat q.format

/-- Concrete PNG-magic-like file contents used in witness environments. -/
def catBytes : List Nat := [137, 80, 78, 71, 13, 10]

/-- Witness environment: one file, visible under both handlers' resolved
paths, with a negative memory delta. -/
def envEx : Env :=
  { fs := fun p =>
      if p = "./public/cat.png" ∨ p = "/srv/public/cat.png" then some catBytes
      else none,
    cwd := "/srv", memBefore := 100, memAfter := 60 }

/-- Witness environment with an empty file system. -/
def envEmpty : Env :=
  { fs := fun _ => none, cwd := "/srv", memBefore := 0, memAfter := 5 }

/-- Witness codec: decode always succeeds with a 4×3 image carrying the input
bytes; resize overwrites the dimensions; encode tags the data with a marker
distinguishing format re-encode from native encode. -/
def codecEx : Codec :=
  { decode := fun bs => .ok { width := 4, height := 3, data := bs },
    resize := fun w h img => { width := w.toNat, height := h.toNat, data := img.data },
    encode := fun f img =>
      match f with
      | some _ => 1 :: img.data
      | none => 0 :: img.data }

example : jsParseInt10 "42" = some 42 := by decide

example : jsParseInt10 "12px" = some 12 := by decide

example : jsParseInt10 "abc" = none := by decide

example : jsParseInt10 "-8" = some (-8) := by decide

example : (Img.loader envEx codecEx { src := some "/cat.png" }).resp.status = 200 := by
  decide

example :
    (Img.loader envEx codecEx { src := some "/cat.png" }).resp.body = .bytes catBytes := by
  decide

example :
    (ImgStream.loader envEx codecEx { src := some "/cat.png", format := some "webp" }).resp.headers =
      [("Content-Type", "image/webp"), ("X-Memory-Usage", "-40 bytes")] := by
  decide

/-- Validation passes exactly when no guard fires. -/
theorem guardNoneIff (q : Query) :
    firstGuardFailure q = none ↔ validateOk q = true := by
  unfold firstGuardFailure validateOk
  split_ifs with h1 h2 h3 h4 <;> simp_all

/-- A failed validation fires some guard. -/
theorem guardOfInvalid (q : Query) (h : validateOk q = false) :
    ∃ m, firstGuardFailure q = some m := by
  rcases hg : firstGuardFailure q with _ | m
  · rw [(guardNoneIff q).mp hg] at h
    exact absurd h (by simp)
  · exact ⟨m, rfl⟩

/-- When any validation guard fails, both handlers return the same plain 400
response (the guard messages coincide in the two sources) and perform no I/O. -/
theorem loaders_invalid (env : Env) (codec : Codec) (q : Query)
    (h : validateOk q = false) :
    ∃ m, Img.loader env codec q = errOut 400 m ∧
      ImgStream.loader env codec q = errOut 400 m := by
  obtain ⟨m, hm⟩ := guardOfInvalid q h
  exact ⟨m, by simp [Img.loader, hm], by simp [ImgStream.loader, hm]⟩

/-- The resize-options gate: the recorded dimensions exist exactly when both
parsed dimensions are truthy. -/
theorem resizeGateIsSome (w h : Option (Option Int)) (x : Int × Int) :
    (if dimTruthy w ∧ dimTruthy h then some x else none).isSome =
      (dimTruthy w && dimTruthy h) := by
  cases hw : dimTruthy w <;> cases hh : dimTruthy h <;> simp_all

/-- The buffered handler invokes the sharp resize exactly when validation
passes, the source file is readable, and both parsed dimensions are truthy. -/
theorem bufferedResizeShape (env : Env) (codec : Codec) (q : Query) :
    (Img.loader env codec q).resizeInvoked =
      (validateOk q && (env.fs ("./public" ++ q.src.getD "")).isSome &&
        (dimTruthy (parseDim q.w) && dimTruthy (parseDim q.h))) := by
  rcases hg : firstGuardFailure q with _ | m
  · have hv : validateOk q = true := (guardNoneIff q).mp hg
    simp only [Img.loader, hg, hv, Bool.true_and]
    rcases henv : env.fs ("./public" ++ q.src.getD "") with _ | buffer
    · simp [henv]
    · simp only [henv, Option.isSome_some, Bool.true_and]
      cases hf : strTruthy q.format <;>
        cases hw : dimTruthy (parseDim q.w) <;>
          cases hh : dimTruthy (parseDim q.h) <;>
            simp [hf, hw, hh] <;>
            split <;> simp
  · have hv : validateOk q = false := by
      cases h : validateOk q
      · rfl
      · rw [(guardNoneIff q).mpr h] at hg
        exact absurd hg (by simp)
    simp [Img.loader, hg, errOut, hv]

/-- The streaming handler invokes the sharp resize exactly when validation
passes and both parsed dimensions are truthy; since `createReadStream` never
fails synchronously, file readability plays no role. -/
theorem streamResizeShape (env : Env) (codec : Codec) (q : Query) :
    (ImgStream.loader env codec q).resizeInvoked =
      (validateOk q && (dimTruthy (parseDim q.w) && dimTruthy (parseDim q.h))) := by
  rcases hg : firstGuardFailure q with _ | m
  · have hv : validateOk q = true := (guardNoneIff q).mp hg
    simp only [ImgStream.loader, hg, hv, Bool.true_and]
    cases hf : strTruthy q.format <;>
      cases hw : dimTruthy (parseDim q.w) <;>
        cases hh : dimTruthy (parseDim q.h) <;>
          simp [hf, hw, hh]
  · have hv : validateOk q = false := by
      cases h : validateOk q
      · rfl
      · rw [(guardNoneIff q).mpr h] at hg
        exact absurd hg (by simp)
    simp [ImgStream.loader, hg, errOut, hv]

/-- C1: a request with `w`, `h` and `format` all absent takes the passthrough
branch on both handlers: no sharp pipeline is constructed, the 200 body is
byte-for-byte the resolved source file's contents, and the declared
Content-Type is the fixed default `image/png` regardless of the file's actual
encoding. -/
theorem c1_passthrough_identity (env : Env) (codec : Codec) (src : String)
    (bufBytes strBytes : List Nat)
    (hsrc : src ≠ "")
    (hb : env.fs ("./public" ++ src) = some bufBytes)
    (hs : env.fs (pathJoin env.cwd src) = some strBytes) :
    Img.loader env codec { src := some src } =
      { resp := { status := 200,
                  headers := [("Content-Type", "image/png"),
                              ("X-Memory-Usage", memHeader env)],
                  body := .bytes bufBytes },
        opens := ["./public" ++ src], reads := ["./public" ++ src],
        resizeInvoked := false, pipelined := false } ∧
    ImgStream.loader env codec { src := some src } =
      { resp := { status := 200,
                  headers := [("Content-Type", "image/png"),
                              ("X-Memory-Usage", memHeader env)],
                  body := .bytes strBytes },
        opens := [pathJoin env.cwd src], reads := [pathJoin env.cwd src],
        resizeInvoked := false, pipelined := false } := by
  constructor
  · simp [Img.loader, firstGuardFailure, strTruthy, parseDim, dimTruthy,
      validFormat, hsrc, hb]
  · simp [ImgStream.loader, firstGuardFailure, strTruthy, parseDim, dimTruthy,
      validFormat, streamBody, hsrc, hs]

/-- C1 witness: the passthrough law evaluated on the concrete witness
environment. -/
theorem c1_witness :
    Img.loader envEx codecEx { src := some "/cat.png" } =
      { resp := { status := 200,
                  headers := [("Content-Type", "image/png"),
                              ("X-Memory-Usage", memHeader envEx)],
                  body := .bytes catBytes },
        opens := ["./public" ++ "/cat.png"], reads := ["./public" ++ "/cat.png"],
        resizeInvoked := false, pipelined := false } ∧
    ImgStream.loader envEx codecEx { src := some "/cat.png" } =
      { resp := { status := 200,
                  headers := [("Content-Type", "image/png"),
                              ("X-Memory-Usage", memHeader envEx)],
                  body := .bytes catBytes },
        opens := [pathJoin envEx.cwd "/cat.png"],
        reads := [pathJoin envEx.cwd "/cat.png"],
        resizeInvoked := false, pipelined := false } :=
  c1_passthrough_identity envEx codecEx "/cat.png" catBytes catBytes
    (by decide) (by decide) (by decide)

/-- Unpacks a passing validation into its four guard facts. -/
theorem validateOk_parts (q : Query) (hv : validateOk q = true) :
    strTruthy q.src = true ∧ parseDim q.w ≠ some none ∧
      parseDim q.h ≠ some none ∧ validFormat q.format = true := by
  simp only [validateOk, Bool.and_eq_true, decide_eq_true_eq] at hv
  exact ⟨hv.1.1.1, hv.1.1.2, hv.1.2, hv.2⟩

/-- C2 counterexample: on the buffered endpoint a request with `format=webp`
and no `w`/`h` succeeds with 200, yet its response carries no `Content-Type`
header at all (the source has the header line commented out), refuting the
claim that both endpoints declare `image/<format>`. -/
theorem c2_counterexample :
    (Img.loader envEx codecEx { src := some "/cat.png", format := some "webp" }).resp.status = 200 ∧
    lookupHeader (Img.loader envEx codecEx { src := some "/cat.png", format := some "webp" }).resp.headers
      "Content-Type" = none := by
  decide

/-- C2 amended: for a validated request with `format` set, the streaming
endpoint declares `Content-Type: image/<format>` (and `image/png` when a
transform is triggered without a format), while the buffered endpoint's
response on the transform path never carries a `Content-Type` header. -/
theorem c2_amended_content_type (env : Env) (codec : Codec) (q : Query)
    (f : String) (hq : q.format = some f) (hv : validateOk q = true) :
    lookupHeader (ImgStream.loader env codec q).resp.headers "Content-Type" =
      some ("image/" ++ f) ∧
    lookupHeader (Img.loader env codec q).resp.headers "Content-Type" = none ∧
    (∀ q' : Query, q'.format = none → validateOk q' = true →
      (dimTruthy (parseDim q'.w) = true ∨ dimTruthy (parseDim q'.h) = true) →
      lookupHeader (ImgStream.loader env codec q').resp.headers "Content-Type" =
        some "image/png") := by
  obtain ⟨hsrc, hw, hh, hf⟩ := validateOk_parts q hv
  have hg : firstGuardFailure q = none := (guardNoneIff q).mpr hv
  have hfne : f ≠ "" := by
    rw [hq] at hf
    simp only [validFormat, decide_eq_true_eq] at hf
    rcases hf with h | h <;> simp [h]
  refine ⟨?_, ?_, ?_⟩
  · simp [ImgStream.loader, hg, hq, strTruthy, hfne, lookupHeader]
  · simp only [Img.loader, hg]
    rcases henv : env.fs ("./public" ++ q.src.getD "") with _ | buffer
    · simp [henv, lookupHeader]
    · cases hw' : dimTruthy (parseDim q.w) <;>
        cases hh' : dimTruthy (parseDim q.h) <;>
          simp only [henv, hw', hh', hq] <;>
          simp [strTruthy, hfne] <;>
          split <;> simp [lookupHeader]
  · intro q' hq' hv' hdim
    have hg' : firstGuardFailure q' = none := (guardNoneIff q').mpr hv'
    have hfs' : strTruthy q'.format = false := by simp [hq', strTruthy]
    rcases hdim with h | h <;> simp [ImgStream.loader, hg', hfs', h, lookupHeader]

/-- C2 witness: the amended content-type behaviour evaluated on the witness
environment with `format=webp`. -/
theorem c2_witness :
    lookupHeader (ImgStream.loader envEx codecEx
        { src := some "/cat.png", format := some "webp" }).resp.headers
      "Content-Type" = some ("image/" ++ "webp") ∧
    lookupHeader (Img.loader envEx codecEx
        { src := some "/cat.png", format := some "webp" }).resp.headers
      "Content-Type" = none :=
  ⟨(c2_amended_content_type envEx codecEx
      { src := some "/cat.png", format := some "webp" } "webp" rfl (by decide)).1,
   (c2_amended_content_type envEx codecEx
      { src := some "/cat.png", format := some "webp" } "webp" rfl (by decide)).2.1⟩

/-- C3 counterexample: a validated request with both `w=2` and `h=3` truthy
against a missing file never reaches the pipeline, so the resize operation is
not invoked although both dimensions parse to truthy values — refuting the
unconditional "if and only if". -/
theorem c3_counterexample :
    dimTruthy (parseDim (some "2")) = true ∧
    dimTruthy (parseDim (some "3")) = true ∧
    validateOk { src := some "/cat.png", w := some "2", h := some "3" } = true ∧
    (Img.loader envEmpty codecEx
      { src := some "/cat.png", w := some "2", h := some "3" }).resizeInvoked = false := by
  decide

/-- C3 amended: the buffered handler invokes resize iff validation passes, the
source file is readable and both parsed dimensions are truthy; the streaming
handler invokes resize iff validation passes and both parsed dimensions are
truthy (its lazy open cannot fail synchronously). With only one dimension
supplied, resize is never invoked and a successful transform emits the encode
of the decoded source image unchanged, so its pixel dimensions are the
source's. -/
theorem c3_amended_resize_gate (env : Env) (codec : Codec) (q : Query) :
    ((Img.loader env codec q).resizeInvoked =
      (validateOk q && (env.fs ("./public" ++ q.src.getD "")).isSome &&
        (dimTruthy (parseDim q.w) && dimTruthy (parseDim q.h)))) ∧
    ((ImgStream.loader env codec q).resizeInvoked =
      (validateOk q && (dimTruthy (parseDim q.w) && dimTruthy (parseDim q.h)))) ∧
    (∀ (buffer : List Nat) (img : Image),
      validateOk q = true →
      env.fs ("./public" ++ q.src.getD "") = some buffer →
      codec.decode buffer = .ok img →
      dimTruthy (parseDim q.w) ≠ dimTruthy (parseDim q.h) →
      (Img.loader env codec q).resizeInvoked = false ∧
      (Img.loader env codec q).resp.status = 200 ∧
      (Img.loader env codec q).resp.body =
        .bytes (codec.encode (if strTruthy q.format then q.format else none) img)) := by
  refine ⟨bufferedResizeShape env codec q, streamResizeShape env codec q, ?_⟩
  intro buffer img hv henv hdec hne
  have hg : firstGuardFailure q = none := (guardNoneIff q).mpr hv
  simp only [Img.loader, hg, henv]
  cases hw' : dimTruthy (parseDim q.w) <;>
    cases hh' : dimTruthy (parseDim q.h) <;>
      simp_all [sharpToBuffer, sharpOutImage]

/-- C3 witness: a single-dimension request (`w=5`, no `h`) on the witness
environment triggers no resize and returns the unresized encode of the decoded
source. -/
theorem c3_witness :
    (Img.loader envEx codecEx { src := some "/cat.png", w := some "5" }).resizeInvoked = false ∧
    (Img.loader envEx codecEx { src := some "/cat.png", w := some "5" }).resp.status = 200 ∧
    (Img.loader envEx codecEx { src := some "/cat.png", w := some "5" }).resp.body =
      .bytes (0 :: catBytes) :=
  (c3_amended_resize_gate envEx codecEx { src := some "/cat.png", w := some "5" }).2.2
    catBytes { width := 4, height := 3, data := catBytes }
    (by decide) (by decide) rfl (by decide)

/-- C4: divergence between the endpoints on a missing source. The buffered
handler's `readFileSync` throws synchronously and its catch returns the
specified 404 with the literal source string; the streaming handler's
`createReadStream` never throws synchronously for a missing file, so its
try/catch returning the same 404 is dead code and the handler emits a 200
passthrough response whose body stream then errors with ENOENT. -/
theorem c4_streaming_missing_file_divergence :
    (Img.loader envEmpty codecEx { src := some "/does-not-exist.png" }).resp =
      { status := 404, headers := [],
        body := .text "Image file not found: /does-not-exist.png" } ∧
    (ImgStream.loader envEmpty codecEx { src := some "/does-not-exist.png" }).resp =
      { status := 200,
        headers := [("Content-Type", "image/png"), ("X-Memory-Usage", "5 bytes")],
        body := .streamError
          "ENOENT: no such file or directory, open /srv/public/does-not-exist.png" } := by
  decide

/-- C5 counterexample: `w="12px"` is present, non-empty, and not a base-10
integer numeral, yet `parseInt("12px", 10)` yields `12`, validation passes on
both endpoints, the file is read, and the request succeeds with 200 instead of
failing with 400. -/
theorem c5_counterexample :
    jsParseInt10 "12px" = some 12 ∧
    (Img.loader envEx codecEx { src := some "/cat.png", w := some "12px" }).resp.status = 200 ∧
    (Img.loader envEx codecEx { src := some "/cat.png", w := some "12px" }).reads =
      ["./public/cat.png"] ∧
    (ImgStream.loader envEx codecEx
      { src := some "/cat.png", w := some "12px" }).resp.status = 200 := by
  decide

/-- C5 amended: a present, non-empty `w` (or `h`) is rejected with 400 exactly
when `parseInt(value, 10)` is `NaN`, i.e. when the value has no leading
base-10 integer prefix after optional whitespace and sign; in that case both
handlers fail before any file is opened or read. Values with a parseable
integer prefix followed by garbage are accepted. -/
theorem c5_amended_nan_validation (env : Env) (codec : Codec) (q : Query)
    (s : String) (hws : q.w = some s ∨ q.h = some s) (hne : s ≠ "")
    (hnan : jsParseInt10 s = none) :
    (Img.loader env codec q).resp.status = 400 ∧
    (Img.loader env codec q).opens = [] ∧
    (Img.loader env codec q).reads = [] ∧
    (ImgStream.loader env codec q).resp.status = 400 ∧
    (ImgStream.loader env codec q).opens = [] ∧
    (ImgStream.loader env codec q).reads = [] := by
  have hv : validateOk q = false := by
    rcases hws with hq | hq
    · have hp : parseDim q.w = some none := by simp [parseDim, hq, hne, hnan]
      simp [validateOk, hp]
    · have hp : parseDim q.h = some none := by simp [parseDim, hq, hne, hnan]
      simp [validateOk, hp]
  obtain ⟨m, h1, h2⟩ := loaders_invalid env codec q hv
  rw [h1, h2]
  simp [errOut]

/-- C5 witness: `w="abc"` is rejected with 400 and no I/O on both endpoints. -/
theorem c5_witness :
    (Img.loader envEx codecEx { src := some "/cat.png", w := some "abc" }).resp.status = 400 ∧
    (Img.loader envEx codecEx { src := some "/cat.png", w := some "abc" }).opens = [] ∧
    (Img.loader envEx codecEx { src := some "/cat.png", w := some "abc" }).reads = [] ∧
    (ImgStream.loader envEx codecEx { src := some "/cat.png", w := some "abc" }).resp.status = 400 ∧
    (ImgStream.loader envEx codecEx { src := some "/cat.png", w := some "abc" }).opens = [] ∧
    (ImgStream.loader envEx codecEx { src := some "/cat.png", w := some "abc" }).reads = [] :=
  c5_amended_nan_validation envEx codecEx { src := some "/cat.png", w := some "abc" }
    "abc" (Or.inl rfl) (by decide) (by decide)

/-- C6 counterexample: the same validated transform request (`format=webp`)
against the same source bytes succeeds with 200 on both endpoints, but only
the streaming endpoint's response carries a `Content-Type` header — the
endpoints do not produce equivalent header sets. -/
theorem c6_counterexample :
    (Img.loader envEx codecEx { src := some "/cat.png", format := some "webp" }).resp.status = 200 ∧
    (ImgStream.loader envEx codecEx { src := some "/cat.png", format := some "webp" }).resp.status = 200 ∧
    lookupHeader (ImgStream.loader envEx codecEx
        { src := some "/cat.png", format := some "webp" }).resp.headers "Content-Type" =
      some "image/webp" ∧
    lookupHeader (Img.loader envEx codecEx
        { src := some "/cat.png", format := some "webp" }).resp.headers "Content-Type" =
      none := by
  decide

/-- C6 amended: the endpoints agree on validation failures (identical 400
responses) and on passthrough successes over the same resolved bytes
(identical status, headers and body); they diverge on the transform branch
(only the streaming endpoint declares a Content-Type) and on missing files
(buffered 404 versus streaming 200 with an erroring body stream). -/
theorem c6_amended_partial_equivalence (env : Env) (codec : Codec) (q : Query) :
    (validateOk q = false →
      Img.loader env codec q = ImgStream.loader env codec q) ∧
    (∀ bytes : List Nat, validateOk q = true →
      strTruthy q.format = false → dimTruthy (parseDim q.w) = false →
      dimTruthy (parseDim q.h) = false →
      env.fs ("./public" ++ q.src.getD "") = some bytes →
      env.fs (pathJoin env.cwd (q.src.getD "")) = some bytes →
      (Img.loader env codec q).resp = (ImgStream.loader env codec q).resp) ∧
    (validateOk q = true →
      env.fs ("./public" ++ q.src.getD "") = none →
      (Img.loader env codec q).resp.status = 404 ∧
      (ImgStream.loader env codec q).resp.status = 200) := by
  refine ⟨?_, ?_, ?_⟩
  · intro hv
    obtain ⟨m, h1, h2⟩ := loaders_invalid env codec q hv
    rw [h1, h2]
  · intro bytes hv hf hw hh hb hs
    have hg : firstGuardFailure q = none := (guardNoneIff q).mpr hv
    simp [Img.loader, ImgStream.loader, hg, hf, hw, hh, hb, hs, streamBody]
  · intro hv hmiss
    have hg : firstGuardFailure q = none := (guardNoneIff q).mpr hv
    constructor
    · simp [Img.loader, hg, hmiss]
    · simp only [ImgStream.loader, hg]
      split <;> rfl

/-- C6 witness: agreement evaluated concretely — a missing-`src` request gets
the identical 400 on both endpoints, and a passthrough request for the same
file yields identical responses. -/
theorem c6_witness :
    Img.loader envEx codecEx { src := none } =
      ImgStream.loader envEx codecEx { src := none } ∧
    (Img.loader envEx codecEx { src := some "/cat.png" }).resp =
      (ImgStream.loader envEx codecEx { src := some "/cat.png" }).resp :=
  ⟨(c6_amended_partial_equivalence envEx codecEx { src := none }).1 (by decide),
   (c6_amended_partial_equivalence envEx codecEx { src := some "/cat.png" }).2.1
     catBytes (by decide) (by decide) (by decide) (by decide) (by decide) (by decide)⟩

/-- Every 200 response of the buffered handler carries the memory header. -/
theorem bufferedMemShape (env : Env) (codec : Codec) (q : Query) :
    (Img.loader env codec q).resp.status = 200 →
    lookupHeader (Img.loader env codec q).resp.headers "X-Memory-Usage" =
      some (memHeader env) := by
  rcases hg : firstGuardFailure q with _ | m
  · simp only [Img.loader, hg]
    rcases henv : env.fs ("./public" ++ q.src.getD "") with _ | buffer
    · simp [henv]
    · simp only [henv]
      cases hf : strTruthy q.format <;>
        cases hw : dimTruthy (parseDim q.w) <;>
          cases hh : dimTruthy (parseDim q.h) <;>
            simp [hf, hw, hh, lookupHeader] <;>
            split <;> simp [lookupHeader]
  · simp [Img.loader, hg, errOut]

/-- Every 200 response of the streaming handler carries the memory header. -/
theorem streamMemShape (env : Env) (codec : Codec) (q : Query) :
    (ImgStream.loader env codec q).resp.status = 200 →
    lookupHeader (ImgStream.loader env codec q).resp.headers "X-Memory-Usage" =
      some (memHeader env) := by
  rcases hg : firstGuardFailure q with _ | m
  · simp only [ImgStream.loader, hg]
    split <;> simp [lookupHeader]
  · simp [ImgStream.loader, hg, errOut]

/-- C7: every 200 response, from either endpoint and on every branch, carries
an `X-Memory-Usage` header whose value is the after-minus-before snapshot
delta (a possibly negative integer) rendered as `"<integer> bytes"`. -/
theorem c7_memory_header (env : Env) (codec : Codec) (q : Query) :
    ((Img.loader env codec q).resp.status = 200 →
      lookupHeader (Img.loader env codec q).resp.headers "X-Memory-Usage" =
        some (memHeader env)) ∧
    ((ImgStream.loader env codec q).resp.status = 200 →
      lookupHeader (ImgStream.loader env codec q).resp.headers "X-Memory-Usage" =
        some (memHeader env)) ∧
    memHeader env = toString (env.memAfter - env.memBefore) ++ " bytes" :=
  ⟨bufferedMemShape env codec q, streamMemShape env codec q, rfl⟩

/-- C7 witness: the memory header evaluated on the witness environment, whose
delta is negative. -/
theorem c7_witness :
    lookupHeader (Img.loader envEx codecEx { src := some "/cat.png" }).resp.headers
      "X-Memory-Usage" = some (memHeader envEx) ∧
    memHeader envEx = toString (envEx.memAfter - envEx.memBefore) ++ " bytes" :=
  ⟨(c7_memory_header envEx codecEx { src := some "/cat.png" }).1 (by decide),
   (c7_memory_header envEx codecEx { src := some "/cat.png" }).2.2⟩

/-- C8: a request failing any validation guard (missing/empty `src`, a
dimension parsing to NaN, or a format other than webp/avif) is answered 400
with no file opened, no file read, and no pipeline constructed, on both
endpoints. -/
theorem c8_validation_before_io (env : Env) (codec : Codec) (q : Query)
    (h : validateOk q = false) :
    (Img.loader env codec q).resp.status = 400 ∧
    (Img.loader env codec q).opens = [] ∧
    (Img.loader env codec q).reads = [] ∧
    (Img.loader env codec q).pipelined = false ∧
    (ImgStream.loader env codec q).resp.status = 400 ∧
    (ImgStream.loader env codec q).opens = [] ∧
    (ImgStream.loader env codec q).reads = [] ∧
    (ImgStream.loader env codec q).pipelined = false := by
  obtain ⟨m, h1, h2⟩ := loaders_invalid env codec q h
  rw [h1, h2]
  simp [errOut]

/-- C8 witness: an invalid `format=jpeg` request is rejected before any I/O on
both endpoints. -/
theorem c8_witness :
    (Img.loader envEx codecEx { src := some "/cat.png", format := some "jpeg" }).resp.status = 400 ∧
    (Img.loader envEx codecEx { src := some "/cat.png", format := some "jpeg" }).opens = [] ∧
    (Img.loader envEx codecEx { src := some "/cat.png", format := some "jpeg" }).reads = [] ∧
    (Img.loader envEx codecEx { src := some "/cat.png", format := some "jpeg" }).pipelined = false ∧
    (ImgStream.loader envEx codecEx { src := some "/cat.png", format := some "jpeg" }).resp.status = 400 ∧
    (ImgStream.loader envEx codecEx { src := some "/cat.png", format := some "jpeg" }).opens = [] ∧
    (ImgStream.loader envEx codecEx { src := some "/cat.png", format := some "jpeg" }).reads = [] ∧
    (ImgStream.loader envEx codecEx { src := some "/cat.png", format := some "jpeg" }).pipelined = false :=
  c8_validation_before_io envEx codecEx { src := some "/cat.png", format := some "jpeg" }
    (by decide)

/-- C9: `w="0"` (or `h="0"`) parses to the number 0, which is falsy, so with
no other transform parameter both gates treat it as absent: both handlers take
the passthrough branch and return the source bytes verbatim with 200, never
attempting a resize or re-encode. -/
theorem c9_zero_dimension_passthrough (env : Env) (codec : Codec) (src : String)
    (bufBytes strBytes : List Nat)
    (hsrc : src ≠ "")
    (hb : env.fs ("./public" ++ src) = some bufBytes)
    (hs : env.fs (pathJoin env.cwd src) = some strBytes) :
    Img.loader env codec { src := some src, w := some "0" } =
      { resp := { status := 200,
                  headers := [("Content-Type", "image/png"),
                              ("X-Memory-Usage", memHeader env)],
                  body := .bytes bufBytes },
        opens := ["./public" ++ src], reads := ["./public" ++ src],
        resizeInvoked := false, pipelined := false } ∧
    ImgStream.loader env codec { src := some src, w := some "0" } =
      { resp := { status := 200,
                  headers := [("Content-Type", "image/png"),
                              ("X-Memory-Usage", memHeader env)],
                  body := .bytes strBytes },
        opens := [pathJoin env.cwd src], reads := [pathJoin env.cwd src],
        resizeInvoked := false, pipelined := false } ∧
    Img.loader env codec { src := some src, h := some "0" } =
      Img.loader env codec { src := some src, w := some "0" } ∧
    ImgStream.loader env codec { src := some src, h := some "0" } =
      ImgStream.loader env codec { src := some src, w := some "0" } := by
  have h0 : parseDim (some "0") = some (some 0) := by decide
  have hd0 : dimTruthy (parseDim (some "0")) = false := by decide
  refine ⟨?_, ?_, ?_, ?_⟩
  · simp [Img.loader, firstGuardFailure, strTruthy, parseDim, dimTruthy,
      validFormat, jsParseInt10, isJsSpace, digitVal, hsrc, hb]
  · simp [ImgStream.loader, firstGuardFailure, strTruthy, parseDim, dimTruthy,
      validFormat, jsParseInt10, isJsSpace, digitVal, streamBody, hsrc, hs]
  · rfl
  · rfl

/-- C9 witness: the zero-dimension passthrough evaluated on the witness
environment. -/
theorem c9_witness :
    Img.loader envEx codecEx { src := some "/cat.png", w := some "0" } =
      { resp := { status := 200,
                  headers := [("Content-Type", "image/png"),
                              ("X-Memory-Usage", memHeader envEx)],
                  body := .bytes catBytes },
        opens := ["./public" ++ "/cat.png"], reads := ["./public" ++ "/cat.png"],
        resizeInvoked := false, pipelined := false } ∧
    ImgStream.loader envEx codecEx { src := some "/cat.png", w := some "0" } =
      { resp := { status := 200,
                  headers := [("Content-Type", "image/png"),
                              ("X-Memory-Usage", memHeader envEx)],
                  body := .bytes catBytes },
        opens := [pathJoin envEx.cwd "/cat.png"],
        reads := [pathJoin envEx.cwd "/cat.png"],
        resizeInvoked := false, pipelined := false } ∧
    Img.loader envEx codecEx { src := some "/cat.png", h := some "0" } =
      Img.loader envEx codecEx { src := some "/cat.png", w := some "0" } ∧
    ImgStream.loader envEx codecEx { src := some "/cat.png", h := some "0" } =
      ImgStream.loader envEx codecEx { src := some "/cat.png", w := some "0" } :=
  c9_zero_dimension_passthrough envEx codecEx "/cat.png" catBytes catBytes
    (by decide) (by decide) (by decide)

/-- C10: a `w` or `h` bound to the empty string is falsy, so the dimension is
coerced to `null` before `parseInt` ever runs: the handlers behave exactly as
if the parameter were absent, on every branch of both endpoints. -/
theorem c10_empty_param_as_absent (env : Env) (codec : Codec) (q : Query) :
    Img.loader env codec { q with w := some "" } =
      Img.loader env codec { q with w := none } ∧
    ImgStream.loader env codec { q with w := some "" } =
      ImgStream.loader env codec { q with w := none } ∧
    Img.loader env codec { q with h := some "" } =
      Img.loader env codec { q with h := none } ∧
    ImgStream.loader env codec { q with h := some "" } =
      ImgStream.loader env codec { q with h := none } := by
  refine ⟨?_, ?_, ?_, ?_⟩ <;> rfl
